import Mathlib

/-!
Verification of the EcoCollect backend (src/server.js): data model, request
handlers, and the gamification/statistics derivation logic, embedded shallowly.
The document store is modelled as in-memory lists; Mongo operations
(`findOne`, `findOneAndUpdate` with `$inc`, `find` with a filter,
`findByIdAndUpdate`, `aggregate` with `$project`/`$sort`/`$limit`) become
explicit list operations. JavaScript numbers are modelled as `ℚ` where
fractional arithmetic occurs (weights, carbon) and `ℕ` for the counters
(xp, streak), which the code only ever increments from a default of 0;
all float operations the code performs on these values are exact in
binary floating point, so `ℚ` is a faithful model. `Math.round x` is
`⌊x + 1/2⌋` (round half toward positive infinity).
-/

/-- JavaScript `Math.round`: round half up, i.e. `⌊q + 1/2⌋`. -/
def jsRound (q : ℚ) : ℤ := ⌊q + (1 : ℚ)/2⌋

/-- A User document (src/server.js lines 24-31). `id` models Mongo's `_id`;
`password` stores the bcrypt hash. -/
structure User where
  id : Nat
  email : String
  password : String
  xp : Nat
  streak : Nat
  badges : List String
  createdAt : Nat
deriving Repr, DecidableEq

/-- A Pickup document (src/server.js lines 33-44). -/
structure Pickup where
  id : Nat
  user : String
  date : String
  location : String
  pickupType : String
  time : String
  phone : String
  materials : List String
  notes : String
  status : String
  createdAt : Nat
deriving Repr, DecidableEq

/-- A Pledge document (src/server.js lines 46-50). -/
structure Pledge where
  user : String
  pledge : String
  createdAt : Nat
deriving Repr, DecidableEq

/-- The three collections of the Mongo database. -/
structure DB where
  users : List User
  pickups : List Pickup
  pledges : List Pledge
deriving Repr, DecidableEq

/-- Mongo `findOneAndUpdate`: apply `f` to the first element satisfying `p`,
leaving the rest unchanged (a no-op when no element matches). -/
def updateFirst (p : α → Bool) (f : α → α) : List α → List α
  | [] => []
  | x :: xs => if p x then f x :: xs else x :: updateFirst p f xs

/-- Badge derivation from XP (src/server.js lines 205-208): three
independently evaluated thresholds, pushed in source order. -/
def deriveBadges (xp : Nat) : List String :=
  (if 100 ≤ xp then ["Plastic Buster"] else []) ++
  (if 200 ≤ xp then ["Paper Saver"] else []) ++
  (if 500 ≤ xp then ["Eco Warrior"] else [])

/-- The XP threshold at which each badge label is granted. -/
def badgeThreshold : String → Nat
  | "Plastic Buster" => 100
  | "Paper Saver" => 200
  | "Eco Warrior" => 500
  | _ => 0

/-- Result of POST /api/register. -/
inductive RegisterResult
  | success
  | alreadyExists
deriving Repr, DecidableEq

/-- POST /api/register (src/server.js lines 57-81): reject when a user with
the email already exists, otherwise insert a fresh record with the hashed
password and the schema defaults (xp 0, streak 0, badges []). `newId` and
`ts` model the store-assigned `_id` and `createdAt`. -/
def register (db : DB) (email hashedPassword : String) (newId ts : Nat) :
    RegisterResult × DB :=
  match db.users.find? (fun u => u.email == email) with
  | some _ => (.alreadyExists, db)
  | none =>
      (.success,
       { db with users := db.users ++
           [{ id := newId, email := email, password := hashedPassword,
              xp := 0, streak := 0, badges := [], createdAt := ts }] })

/-- Result of POST /api/login: either the generic 400 or the shaped user. -/
inductive LoginResult
  | invalidCredentials
  | success (email : String) (xp streak : Nat) (badges : List String)
deriving Repr, DecidableEq

/-- POST /api/login (src/server.js lines 83-111): look the user up by email,
compare the password with the stored hash via the bcrypt collaborator
`cmp`, and answer the same `invalidCredentials` for an unknown email and a
wrong password. The success response exposes email, xp, streak and
badges only. -/
def login (cmp : String → String → Bool) (db : DB) (email password : String) :
    LoginResult :=
  match db.users.find? (fun u => u.email == email) with
  | none => .invalidCredentials
  | some u =>
      if cmp password u.password then .success u.email u.xp u.streak u.badges
      else .invalidCredentials

/-- POST /api/pickups (src/server.js lines 114-129): save the pickup, then
`$inc` the owning user's xp by 10 (no-op when the owner does not exist). -/
def schedulePickup (db : DB) (p : Pickup) : DB :=
  { db with
    pickups := db.pickups ++ [p],
    users := updateFirst (fun u => u.email == p.user)
      (fun u => { u with xp := u.xp + 10 }) db.users }

/-- Result of PUT /api/pickups/:id/complete. -/
inductive CompleteResult
  | notFound
  | ok (p : Pickup)
deriving Repr, DecidableEq

/-- PUT /api/pickups/:id/complete (src/server.js lines 140-164): set the
pickup's status to Completed by id (404 when absent), then `$inc` the
owner's xp by 20 and streak by 1. The lookup is by id only, so completing
an already Completed pickup re-awards the increments. -/
def completePickup (db : DB) (pid : Nat) : CompleteResult × DB :=
  match db.pickups.find? (fun p => p.id == pid) with
  | none => (.notFound, db)
  | some p =>
      (.ok { p with status := "Completed" },
       { db with
         pickups := updateFirst (fun q => q.id == pid)
           (fun q => { q with status := "Completed" }) db.pickups,
         users := updateFirst (fun u => u.email == p.user)
           (fun u => { u with xp := u.xp + 20, streak := u.streak + 1 })
           db.users })

/-- POST /api/pledges (src/server.js lines 167-182): save the pledge, then
`$inc` the owning user's xp by 5. -/
def addPledge (db : DB) (pl : Pledge) : DB :=
  { db with
    pledges := db.pledges ++ [pl],
    users := updateFirst (fun u => u.email == pl.user)
      (fun u => { u with xp := u.xp + 5 }) db.users }

/-- Display rounding `Math.round(x * 10) / 10`, applied to totalWeight in
the response shaping (src/server.js line 220). -/
def roundTo1 (q : ℚ) : ℚ := (jsRound (q * 10) : ℚ) / 10

/-- The stats JSON body (src/server.js lines 218-226). -/
structure Stats where
  itemsRecycled : Nat
  totalWeight : ℚ
  carbonOffset : ℤ
  xpEarned : Nat
  totalPickups : Nat
  streakDays : Nat
  badgesEarned : String
deriving Repr, DecidableEq

/-- Outcome of GET /api/stats/:userEmail: either the 200 stats body, or the
catch-all 500 `{message, error}` produced by the handler's try/catch. -/
inductive StatsResult
  | serverError (message error : String)
  | ok (s : Stats)
deriving Repr, DecidableEq

/-- GET /api/stats/:userEmail (src/server.js lines 194-232). When no user
matches, the code dereferences `user.xp` on `null`; the thrown TypeError is
caught by the handler's try/catch and surfaced as the structured 500
response, with the store untouched. Otherwise: sum material counts over the
user's pickups, derive weight/carbon with the fixed 0.5 and 2.5 factors,
derive badges from xp, persist the fresh badge list as a full replacement
precisely when its count strictly exceeds the stored count, and shape the
response. -/
def getStats (db : DB) (userEmail : String) : StatsResult × DB :=
  match db.users.find? (fun u => u.email == userEmail) with
  | none =>
      (.serverError "Server error"
        "Cannot read properties of null (reading 'xp')", db)
  | some user =>
      let pickups := db.pickups.filter (fun p => p.user == userEmail)
      let itemsRecycled : ℕ := (pickups.map (fun p => p.materials.length)).sum
      let totalWeight : ℚ := (itemsRecycled : ℚ) * (1/2)
      let carbonOffset := jsRound (totalWeight * (5/2))
      let badges := deriveBadges user.xp
      let users' := updateFirst (fun u => u.email == userEmail)
        (fun u => { u with badges := badges }) db.users
      let db' :=
        if user.badges.length < badges.length then { db with users := users' }
        else db
      (.ok { itemsRecycled := itemsRecycled,
             totalWeight := roundTo1 totalWeight,
             carbonOffset := carbonOffset,
             xpEarned := user.xp,
             totalPickups := pickups.length,
             streakDays := user.streak,
             badgesEarned :=
               if 0 < badges.length then String.intercalate ", " badges
               else "None" },
       db')

/-- A leaderboard entry, as produced by the `$project` stage
(src/server.js lines 239-244): `_id` (implicit in Mongo), email, xp,
badges. -/
structure LBEntry where
  id : Nat
  email : String
  xp : Nat
  badges : List String
deriving Repr, DecidableEq

/-- The leaderboard ordering: xp descending. -/
def lbLe (a b : LBEntry) : Prop := b.xp ≤ a.xp

instance : DecidableRel lbLe := fun a b => inferInstanceAs (Decidable (b.xp ≤ a.xp))

instance : IsTotal LBEntry lbLe := ⟨fun a b => by unfold lbLe; exact le_total b.xp a.xp⟩

instance : IsTrans LBEntry lbLe := ⟨fun _ _ _ h h' => by unfold lbLe at *; exact le_trans h' h⟩

/-- GET /api/community/leaderboard (src/server.js lines 235-253): project
every user to {_id, email, xp, badges}, sort by xp descending, take the
first 10. The store's tie order is unspecified; a stable sort stands in
for it. -/
def leaderboard (db : DB) : List LBEntry :=
  (List.insertionSort lbLe
    (db.users.map (fun u =>
      { id := u.id, email := u.email, xp := u.xp, badges := u.badges }))).take 10

/-- GET /api/community/goal (src/server.js lines 255-266): sum material
counts over every pickup (no status filter) and apply
`Math.round(total * 0.5 * 2.5)`. -/
def communityGoal (db : DB) : ℤ :=
  jsRound (((((db.pickups.map (fun p => p.materials.length)).sum : ℕ) : ℚ))
    * (1/2) * (5/2))

mutual
/-- A JSON value, for stating what the shaped responses expose. -/
inductive JVal
  | str (s : String)
  | num (q : ℚ)
  | strArr (l : List String)
  | obj (fields : JFields)
deriving DecidableEq

/-- The fields of a JSON object, in order. -/
inductive JFields
  | nil
  | cons (k : String) (v : JVal) (rest : JFields)
deriving DecidableEq
end

/-- The keys of a JSON object's field list. -/
def JFields.keys : JFields → List String
  | .nil => []
  | .cons k _ rest => k :: rest.keys

mutual
/-- Whether the key `k` occurs anywhere in the JSON tree. -/
def JVal.hasKey (k : String) : JVal → Bool
  | .str _ => false
  | .num _ => false
  | .strArr _ => false
  | .obj fs => JFields.hasKey k fs

/-- Whether the key `k` occurs in the field list or in any nested value. -/
def JFields.hasKey (k : String) : JFields → Bool
  | .nil => false
  | .cons k' v rest => k' == k || JVal.hasKey k v || JFields.hasKey k rest
end

/-- The JSON body of the login response (src/server.js lines 90, 96,
99-107): the generic message on failure, and on success a message plus a
`user` object holding exactly email, xp, streak, badges. -/
def loginResponse : LoginResult → JVal
  | .invalidCredentials => .obj (.cons "message" (.str "Invalid credentials") .nil)
  | .success e xp streak badges =>
      .obj (.cons "message" (.str "Login successful")
        (.cons "user"
          (.obj (.cons "email" (.str e)
            (.cons "xp" (.num xp)
              (.cons "streak" (.num streak)
                (.cons "badges" (.strArr badges) .nil))))) .nil))

/-- One leaderboard entry as JSON (src/server.js lines 239-249). -/
def lbEntryJson (e : LBEntry) : JVal :=
  .obj (.cons "_id" (.num e.id)
    (.cons "email" (.str e.email)
      (.cons "xp" (.num e.xp)
        (.cons "badges" (.strArr e.badges) .nil))))

/-- The leaderboard response body. -/
def leaderboardJson (db : DB) : List JVal :=
  (leaderboard db).map lbEntryJson

/-- The community-goal response body (src/server.js line 262): the carbon
figure only. -/
def communityGoalJson (db : DB) : JVal :=
  .obj (.cons "totalCarbon" (.num (communityGoal db)) .nil)

/-! ### Helper lemmas -/

theorem find?_updateFirst {α : Type} (p : α → Bool) (f : α → α) (l : List α)
    (x : α) (h : l.find? p = some x) (hf : p (f x) = true) :
    (updateFirst p f l).find? p = some (f x) := by
  induction l with
  | nil => simp at h
  | cons a l ih =>
    by_cases hpa : p a = true
    · rw [List.find?_cons_of_pos _ hpa] at h
      injection h with h
      subst h
      simp [updateFirst, hpa, List.find?_cons_of_pos _ hf]
    · have hpa' : p a = false := by simpa using hpa
      rw [List.find?_cons_of_neg _ (by simp [hpa'])] at h
      simp [updateFirst, hpa', List.find?_cons_of_neg, ih h]

theorem sum_filter_add_sum_filter_not {α : Type} (p : α → Bool) (f : α → ℕ) :
    ∀ l : List α,
      ((l.filter p).map f).sum + ((l.filter (fun x => !p x)).map f).sum =
        (l.map f).sum
  | [] => rfl
  | a :: l => by
    have ih := sum_filter_add_sum_filter_not p f l
    by_cases h : p a = true
    · simp only [List.filter_cons, h, Bool.not_true, List.map_cons,
        List.sum_cons, if_true, Bool.false_eq_true, if_false]
      omega
    · have h' : p a = false := by simpa using h
      simp only [List.filter_cons, h', Bool.not_false, List.map_cons,
        List.sum_cons, if_true, Bool.false_eq_true, if_false]
      omega

theorem jsRound_natCast (n : ℕ) : jsRound (n : ℚ) = (n : ℤ) := by
  unfold jsRound
  rw [show ((n : ℚ) + 1/2) = (1/2 : ℚ) + (n : ℤ) by push_cast; ring,
    Int.floor_add_int]
  norm_num

theorem roundTo1_half (n : ℕ) :
    roundTo1 ((n : ℚ) * (1/2)) = (n : ℚ) * (1/2) := by
  unfold roundTo1
  rw [show ((n : ℚ) * (1/2)) * 10 = ((5 * n : ℕ) : ℚ) by push_cast; ring,
    jsRound_natCast]
  push_cast
  ring

/-! ### Claim theorems -/

/-- C1: for any sequence of pickups given to the stats computation,
`itemsRecycled` is the sum over the user's pickups of the material count,
`totalWeight` is `itemsRecycled * 0.5` rounded to one decimal place for
display (which leaves the value unchanged), and `carbonOffset` is
`Math.round(itemsRecycled * 0.5 * 2.5)`. -/
theorem getStats_impact (db : DB) (e : String) (u : User)
    (hu : db.users.find? (fun v => v.email == e) = some u) :
    ∃ s, (getStats db e).1 = .ok s ∧
      s.itemsRecycled =
        ((db.pickups.filter (fun p => p.user == e)).map
          (fun p => p.materials.length)).sum ∧
      s.totalWeight = roundTo1 ((s.itemsRecycled : ℚ) * (1/2)) ∧
      s.totalWeight = (s.itemsRecycled : ℚ) * (1/2) ∧
      s.carbonOffset = jsRound ((s.itemsRecycled : ℚ) * (1/2) * (5/2)) := by
  unfold getStats
  rw [hu]
  exact ⟨_, rfl, rfl, rfl, roundTo1_half _, rfl⟩

/-- Witness for C1: a store with one user and two pickups (3 and 1
materials): 4 items, 2.0 kg, 5 kg carbon. -/
theorem getStats_impact_witness :
    ∃ s, (getStats
      { users := [{ id := 1, email := "a", password := "h", xp := 150,
                    streak := 2, badges := [], createdAt := 0 }],
        pickups := [{ id := 1, user := "a", date := "", location := "",
                      pickupType := "", time := "", phone := "",
                      materials := ["p", "q", "r"], notes := "",
                      status := "Scheduled", createdAt := 0 },
                    { id := 2, user := "a", date := "", location := "",
                      pickupType := "", time := "", phone := "",
                      materials := ["s"], notes := "",
                      status := "Completed", createdAt := 1 }],
        pledges := [] } "a").1 = .ok s ∧
      s.itemsRecycled =
        ((({ users := [{ id := 1, email := "a", password := "h", xp := 150,
                         streak := 2, badges := [], createdAt := 0 }],
             pickups := [{ id := 1, user := "a", date := "", location := "",
                           pickupType := "", time := "", phone := "",
                           materials := ["p", "q", "r"], notes := "",
                           status := "Scheduled", createdAt := 0 },
                         { id := 2, user := "a", date := "", location := "",
                           pickupType := "", time := "", phone := "",
                           materials := ["s"], notes := "",
                           status := "Completed", createdAt := 1 }],
             pledges := [] } : DB).pickups.filter
            (fun p => p.user == "a")).map (fun p => p.materials.length)).sum ∧
      s.totalWeight = roundTo1 ((s.itemsRecycled : ℚ) * (1/2)) ∧
      s.totalWeight = (s.itemsRecycled : ℚ) * (1/2) ∧
      s.carbonOffset = jsRound ((s.itemsRecycled : ℚ) * (1/2) * (5/2)) :=
  getStats_impact _ "a"
    { id := 1, email := "a", password := "h", xp := 150, streak := 2,
      badges := [], createdAt := 0 } (by decide)

/-- C3: deriveBadges is a pure function of XP with independently evaluated
thresholds; the four sample values hold and for every XP the returned
sequence is ordered threshold-ascending (100, 200, 500). -/
theorem deriveBadges_spec :
    deriveBadges 50 = [] ∧
    deriveBadges 100 = ["Plastic Buster"] ∧
    deriveBadges 200 = ["Plastic Buster", "Paper Saver"] ∧
    deriveBadges 500 = ["Plastic Buster", "Paper Saver", "Eco Warrior"] ∧
    ∀ xp : ℕ, List.Chain'
      (fun a b => badgeThreshold a < badgeThreshold b) (deriveBadges xp) := by
  refine ⟨by decide, by decide, by decide, by decide, ?_⟩
  intro xp
  unfold deriveBadges
  split_ifs <;> simp [badgeThreshold]

/-- C5: a stats request for an email with no matching user dereferences the
absent record; the resulting fault is caught by the handler's try/catch and
surfaced as the structured 500 `{message, error}` response (not an explicit
NotFound), the process keeps running, and the store is untouched. -/
theorem getStats_missing_user (db : DB) (e : String)
    (h : db.users.find? (fun v => v.email == e) = none) :
    (getStats db e).1 = .serverError "Server error"
      "Cannot read properties of null (reading 'xp')" ∧
    (getStats db e).2 = db := by
  unfold getStats
  rw [h]
  exact ⟨rfl, rfl⟩

/-- Witness for C5: a store with one user `"a"`, queried for `"b"`. -/
theorem getStats_missing_user_witness :
    (getStats
      { users := [{ id := 1, email := "a", password := "h", xp := 0,
                    streak := 0, badges := [], createdAt := 0 }],
        pickups := [], pledges := [] } "b").1 =
      .serverError "Server error"
        "Cannot read properties of null (reading 'xp')" ∧
    (getStats
      { users := [{ id := 1, email := "a", password := "h", xp := 0,
                    streak := 0, badges := [], createdAt := 0 }],
        pickups := [], pledges := [] } "b").2 =
      { users := [{ id := 1, email := "a", password := "h", xp := 0,
                    streak := 0, badges := [], createdAt := 0 }],
        pickups := [], pledges := [] } :=
  getStats_missing_user _ "b" (by decide)

/-- C6: the community-goal figure equals
`Math.round(0.5 * 2.5 * total materials count)` where the total ranges over
every pickup regardless of status (both the Scheduled and the
non-Scheduled pickups contribute), and the response body is an object
carrying the single key `totalCarbon`. -/
theorem communityGoal_spec (db : DB) :
    communityGoal db =
      jsRound ((1/2) * (5/2) *
        ((((db.pickups.filter (fun p => p.status == "Scheduled")).map
            (fun p => p.materials.length)).sum +
          ((db.pickups.filter (fun p => !(p.status == "Scheduled"))).map
            (fun p => p.materials.length)).sum : ℕ) : ℚ)) ∧
    ∃ q : ℚ, communityGoalJson db =
      JVal.obj (JFields.cons "totalCarbon" (JVal.num q) JFields.nil) := by
  constructor
  · have hn := sum_filter_add_sum_filter_not (fun p => p.status == "Scheduled")
      (fun p => p.materials.length) db.pickups
    unfold communityGoal
    congr 1
    rw [hn]
    ring
  · exact ⟨_, rfl⟩

theorem find?_append_of_none {α : Type} (p : α → Bool) {l1 : List α}
    (l2 : List α) (h : l1.find? p = none) :
    (l1 ++ l2).find? p = l2.find? p := by
  induction l1 with
  | nil => rfl
  | cons a l ih =>
    by_cases hpa : p a = true
    · rw [List.find?_cons_of_pos _ hpa] at h
      exact absurd h (by simp)
    · have hpa' : p a = false := by simpa using hpa
      rw [List.find?_cons_of_neg _ (by simp [hpa'])] at h
      rw [List.cons_append, List.find?_cons_of_neg _ (by simp [hpa'])]
      exact ih h

/-- C8: registering an email that is free succeeds; a second registration of
the same email answers AlreadyExists and leaves the whole store — in
particular the first user's record (password hash, xp, streak, badges,
creation timestamp) — entirely unchanged. -/
theorem register_duplicate (db : DB) (e h1 h2 : String) (i1 t1 i2 t2 : Nat)
    (hno : db.users.find? (fun v => v.email == e) = none) :
    (register db e h1 i1 t1).1 = .success ∧
    (register (register db e h1 i1 t1).2 e h2 i2 t2).1 = .alreadyExists ∧
    (register (register db e h1 i1 t1).2 e h2 i2 t2).2 =
      (register db e h1 i1 t1).2 := by
  unfold register
  rw [hno]
  simp only
  rw [find?_append_of_none _ _ hno]
  simp

/-- Witness for C8: registering `"a"` twice into an empty store. -/
theorem register_duplicate_witness :
    (register { users := [], pickups := [], pledges := [] }
      "a" "h1" 1 0).1 = .success ∧
    (register (register { users := [], pickups := [], pledges := [] }
      "a" "h1" 1 0).2 "a" "h2" 2 1).1 = .alreadyExists ∧
    (register (register { users := [], pickups := [], pledges := [] }
      "a" "h1" 1 0).2 "a" "h2" 2 1).2 =
      (register { users := [], pickups := [], pledges := [] }
        "a" "h1" 1 0).2 :=
  register_duplicate _ "a" "h1" "h2" 1 0 2 1 (by decide)

/-- C9: login with a wrong password answers the generic invalid-credentials
failure, and that response is identical — as a JSON body — to the one
answered for a nonexistent email, so the response never reveals whether the
email exists. -/
theorem login_wrong_password_indistinguishable
    (cmp : String → String → Bool) (db : DB) (e pw : String) (u : User)
    (hu : db.users.find? (fun v => v.email == e) = some u)
    (hw : cmp pw u.password = false)
    (db' : DB) (e' pw' : String)
    (hn : db'.users.find? (fun v => v.email == e') = none) :
    login cmp db e pw = .invalidCredentials ∧
    loginResponse (login cmp db e pw) =
      loginResponse (login cmp db' e' pw') := by
  unfold login
  rw [hu, hn]
  simp [hw]

/-- Witness for C9: a store holding user `"a"` with stored hash `"H"`,
probed with a comparator that rejects, against an empty store. -/
theorem login_wrong_password_indistinguishable_witness :
    login (fun _ _ => false)
      { users := [{ id := 1, email := "a", password := "H", xp := 0,
                    streak := 0, badges := [], createdAt := 0 }],
        pickups := [], pledges := [] } "a" "wrong" = .invalidCredentials ∧
    loginResponse (login (fun _ _ => false)
      { users := [{ id := 1, email := "a", password := "H", xp := 0,
                    streak := 0, badges := [], createdAt := 0 }],
        pickups := [], pledges := [] } "a" "wrong") =
      loginResponse (login (fun _ _ => false)
        { users := [], pickups := [], pledges := [] } "a" "wrong") :=
  login_wrong_password_indistinguishable (fun _ _ => false) _ "a" "wrong"
    { id := 1, email := "a", password := "H", xp := 0, streak := 0,
      badges := [], createdAt := 0 } (by decide) (by decide) _ "a" "wrong"
    (by decide)

/-- C2: for a user present in the store, scheduling a pickup they own adds
exactly 10 XP and changes no other counter; completing a pickup adds
exactly 20 XP and 1 streak to the owner, and completing the same pickup a
second time re-awards both increments (no idempotence); submitting a
pledge adds exactly 5 XP. -/
theorem xp_award_policy (db : DB) (e : String) (u : User)
    (hu : db.users.find? (fun v => v.email == e) = some u) :
    (∀ p : Pickup, p.user = e →
      (schedulePickup db p).users.find? (fun v => v.email == e) =
        some { u with xp := u.xp + 10 }) ∧
    (∀ pid : ℕ, ∀ pk : Pickup,
      db.pickups.find? (fun q => q.id == pid) = some pk → pk.user = e →
      (completePickup db pid).1 = .ok { pk with status := "Completed" } ∧
      (completePickup db pid).2.users.find? (fun v => v.email == e) =
        some { u with xp := u.xp + 20, streak := u.streak + 1 } ∧
      (completePickup (completePickup db pid).2 pid).2.users.find?
          (fun v => v.email == e) =
        some { u with xp := u.xp + 40, streak := u.streak + 2 }) ∧
    (∀ pl : Pledge, pl.user = e →
      (addPledge db pl).users.find? (fun v => v.email == e) =
        some { u with xp := u.xp + 5 }) := by
  have hue := List.find?_some hu
  refine ⟨?_, ?_, ?_⟩
  · intro p hp
    subst hp
    unfold schedulePickup
    exact find?_updateFirst _ _ _ u hu hue
  · intro pid pk hpk hpe
    subst hpe
    have hpid := List.find?_some hpk
    have hdb1 : completePickup db pid =
        (.ok { pk with status := "Completed" },
         { db with
           pickups := updateFirst (fun q => q.id == pid)
             (fun q => { q with status := "Completed" }) db.pickups,
           users := updateFirst (fun v => v.email == pk.user)
             (fun v => { v with xp := v.xp + 20, streak := v.streak + 1 })
             db.users }) := by
      unfold completePickup
      rw [hpk]
    have h1 : (updateFirst (fun v => v.email == pk.user)
        (fun v => { v with xp := v.xp + 20, streak := v.streak + 1 })
        db.users).find? (fun v => v.email == pk.user) =
        some { u with xp := u.xp + 20, streak := u.streak + 1 } :=
      find?_updateFirst _ _ _ u hu hue
    have hpk1 : (updateFirst (fun q => q.id == pid)
        (fun q => { q with status := "Completed" }) db.pickups).find?
        (fun q => q.id == pid) = some { pk with status := "Completed" } :=
      find?_updateFirst _ _ _ pk hpk hpid
    have h2 := find?_updateFirst (fun v => v.email == pk.user)
      (fun v => { v with xp := v.xp + 20, streak := v.streak + 1 })
      (updateFirst (fun v => v.email == pk.user)
        (fun v => { v with xp := v.xp + 20, streak := v.streak + 1 })
        db.users)
      { u with xp := u.xp + 20, streak := u.streak + 1 } h1 hue
    refine ⟨by rw [hdb1], by rw [hdb1]; exact h1, ?_⟩
    rw [hdb1]
    dsimp only
    unfold completePickup
    dsimp only
    rw [hpk1]
    dsimp only
    refine Eq.trans h2 ?_
    simp only [Option.some.injEq, User.mk.injEq]
  · intro pl hp
    subst hp
    unfold addPledge
    exact find?_updateFirst _ _ _ u hu hue

/-- Witness for C2: one user `"a"` at xp 0 / streak 0 and one Scheduled
pickup with id 1; scheduling, completing (twice), and pledging yield
xp 10, xp 20 / streak 1, xp 40 / streak 2, and xp 5 respectively. -/
theorem xp_award_policy_witness :
    (schedulePickup
      { users := [{ id := 1, email := "a", password := "h", xp := 0,
                    streak := 0, badges := [], createdAt := 0 }],
        pickups := [{ id := 1, user := "a", date := "", location := "",
                      pickupType := "", time := "", phone := "",
                      materials := [], notes := "", status := "Scheduled",
                      createdAt := 0 }],
        pledges := [] }
      { id := 2, user := "a", date := "", location := "", pickupType := "",
        time := "", phone := "", materials := [], notes := "",
        status := "Scheduled", createdAt := 1 }).users.find?
        (fun v => v.email == "a") =
      some { id := 1, email := "a", password := "h", xp := 10, streak := 0,
             badges := [], createdAt := 0 } ∧
    ((completePickup
      { users := [{ id := 1, email := "a", password := "h", xp := 0,
                    streak := 0, badges := [], createdAt := 0 }],
        pickups := [{ id := 1, user := "a", date := "", location := "",
                      pickupType := "", time := "", phone := "",
                      materials := [], notes := "", status := "Scheduled",
                      createdAt := 0 }],
        pledges := [] } 1).1 =
      .ok { id := 1, user := "a", date := "", location := "",
            pickupType := "", time := "", phone := "", materials := [],
            notes := "", status := "Completed", createdAt := 0 } ∧
    (completePickup
      { users := [{ id := 1, email := "a", password := "h", xp := 0,
                    streak := 0, badges := [], createdAt := 0 }],
        pickups := [{ id := 1, user := "a", date := "", location := "",
                      pickupType := "", time := "", phone := "",
                      materials := [], notes := "", status := "Scheduled",
                      createdAt := 0 }],
        pledges := [] } 1).2.users.find? (fun v => v.email == "a") =
      some { id := 1, email := "a", password := "h", xp := 20, streak := 1,
             badges := [], createdAt := 0 } ∧
    (completePickup (completePickup
      { users := [{ id := 1, email := "a", password := "h", xp := 0,
                    streak := 0, badges := [], createdAt := 0 }],
        pickups := [{ id := 1, user := "a", date := "", location := "",
                      pickupType := "", time := "", phone := "",
                      materials := [], notes := "", status := "Scheduled",
                      createdAt := 0 }],
        pledges := [] } 1).2 1).2.users.find? (fun v => v.email == "a") =
      some { id := 1, email := "a", password := "h", xp := 40, streak := 2,
             badges := [], createdAt := 0 }) ∧
    (addPledge
      { users := [{ id := 1, email := "a", password := "h", xp := 0,
                    streak := 0, badges := [], createdAt := 0 }],
        pickups := [{ id := 1, user := "a", date := "", location := "",
                      pickupType := "", time := "", phone := "",
                      materials := [], notes := "", status := "Scheduled",
                      createdAt := 0 }],
        pledges := [] }
      { user := "a", pledge := "t", createdAt := 2 }).users.find?
        (fun v => v.email == "a") =
      some { id := 1, email := "a", password := "h", xp := 5, streak := 0,
             badges := [], createdAt := 0 } := by
  have h := xp_award_policy
    { users := [{ id := 1, email := "a", password := "h", xp := 0,
                  streak := 0, badges := [], createdAt := 0 }],
      pickups := [{ id := 1, user := "a", date := "", location := "",
                    pickupType := "", time := "", phone := "",
                    materials := [], notes := "", status := "Scheduled",
                    createdAt := 0 }],
      pledges := [] } "a"
    { id := 1, email := "a", password := "h", xp := 0, streak := 0,
      badges := [], createdAt := 0 } (by decide)
  exact ⟨h.1 _ rfl,
    h.2.1 1 { id := 1, user := "a", date := "", location := "",
              pickupType := "", time := "", phone := "", materials := [],
              notes := "", status := "Scheduled", createdAt := 0 }
      (by decide) rfl,
    h.2.2 { user := "a", pledge := "t", createdAt := 2 } rfl⟩

/-- C4: during a stats request badge reconciliation compares by count only:
the freshly derived badge set is persisted as a full replacement of the
stored set when its count strictly exceeds the stored count, and the store
is left entirely unchanged otherwise — even when the contents differ. -/
theorem badge_reconciliation (db : DB) (e : String) (u : User)
    (hu : db.users.find? (fun v => v.email == e) = some u) :
    (u.badges.length < (deriveBadges u.xp).length →
      (getStats db e).2.users.find? (fun v => v.email == e) =
        some { u with badges := deriveBadges u.xp }) ∧
    (¬ u.badges.length < (deriveBadges u.xp).length →
      (getStats db e).2 = db) := by
  have hue := List.find?_some hu
  unfold getStats
  rw [hu]
  dsimp only
  constructor
  · intro hlt
    rw [if_pos hlt]
    exact find?_updateFirst _ _ _ u hu hue
  · intro hge
    rw [if_neg hge]

/-- Witness for C4: a user with 0 stored badges and xp 150 gets
`["Plastic Buster"]` persisted; a user with 1 stored badge of different
contents and xp 150 (1 freshly derived badge) is left unchanged. -/
theorem badge_reconciliation_witness :
    (getStats
      { users := [{ id := 1, email := "a", password := "h", xp := 150,
                    streak := 0, badges := [], createdAt := 0 }],
        pickups := [], pledges := [] } "a").2.users.find?
        (fun v => v.email == "a") =
      some { id := 1, email := "a", password := "h", xp := 150, streak := 0,
             badges := ["Plastic Buster"], createdAt := 0 } ∧
    (getStats
      { users := [{ id := 1, email := "b", password := "h", xp := 150,
                    streak := 0, badges := ["Old Badge"], createdAt := 0 }],
        pickups := [], pledges := [] } "b").2 =
      { users := [{ id := 1, email := "b", password := "h", xp := 150,
                    streak := 0, badges := ["Old Badge"], createdAt := 0 }],
        pickups := [], pledges := [] } :=
  ⟨(badge_reconciliation _ "a"
      { id := 1, email := "a", password := "h", xp := 150, streak := 0,
        badges := [], createdAt := 0 } (by decide)).1 (by decide),
   (badge_reconciliation _ "b"
      { id := 1, email := "b", password := "h", xp := 150, streak := 0,
        badges := ["Old Badge"], createdAt := 0 } (by decide)).2 (by decide)⟩

/-- C7: for every state of the User store the leaderboard has at most 10
entries, is sorted by XP descending, and every entry is the
{_id, email, xp, badges} projection of some stored user (tie order left to
the sort, which may remain arbitrary). -/
theorem leaderboard_spec (db : DB) :
    (leaderboard db).length ≤ 10 ∧
    List.Sorted lbLe (leaderboard db) ∧
    ∀ x ∈ leaderboard db, ∃ v ∈ db.users,
      x = { id := v.id, email := v.email, xp := v.xp, badges := v.badges } := by
  refine ⟨?_, ?_, ?_⟩
  · unfold leaderboard
    exact List.length_take_le _ _
  · unfold leaderboard
    exact List.Pairwise.sublist (List.take_sublist _ _)
      (List.sorted_insertionSort lbLe _)
  · intro x hx
    unfold leaderboard at hx
    have hx' := List.mem_of_mem_take hx
    rw [List.mem_insertionSort] at hx'
    obtain ⟨v, hv, hev⟩ := List.mem_map.1 hx'
    exact ⟨v, hv, hev.symm⟩

/-- Witness for C7: a two-user store; the projection claim is discharged at
the top entry (the xp-25 user). -/
theorem leaderboard_spec_witness :
    (leaderboard
      { users := [{ id := 1, email := "a", password := "h", xp := 5,
                    streak := 0, badges := [], createdAt := 0 },
                  { id := 2, email := "b", password := "g", xp := 25,
                    streak := 1, badges := ["Plastic Buster"],
                    createdAt := 1 }],
        pickups := [], pledges := [] }).length ≤ 10 ∧
    ∃ v ∈ ({ users := [{ id := 1, email := "a", password := "h", xp := 5,
                         streak := 0, badges := [], createdAt := 0 },
                       { id := 2, email := "b", password := "g", xp := 25,
                         streak := 1, badges := ["Plastic Buster"],
                         createdAt := 1 }],
             pickups := [], pledges := [] } : DB).users,
      ({ id := 2, email := "b", xp := 25,
         badges := ["Plastic Buster"] } : LBEntry) =
        { id := v.id, email := v.email, xp := v.xp, badges := v.badges } :=
  ⟨(leaderboard_spec _).1,
   (leaderboard_spec
      { users := [{ id := 1, email := "a", password := "h", xp := 5,
                    streak := 0, badges := [], createdAt := 0 },
                  { id := 2, email := "b", password := "g", xp := 25,
                    streak := 1, badges := ["Plastic Buster"],
                    createdAt := 1 }],
        pickups := [], pledges := [] }).2.2
      { id := 2, email := "b", xp := 25, badges := ["Plastic Buster"] }
      (by decide)⟩

/-- C10: no response at the public interface carries the stored password
hash: the login response never contains a `password` key anywhere, a
successful login exposes a user object whose keys are exactly email, xp,
streak, badges, and every leaderboard entry is an object whose keys are
exactly _id, email, xp, badges, with no `password` key anywhere. -/
theorem no_password_exposure (cmp : String → String → Bool) (db : DB)
    (e pw : String) :
    JVal.hasKey "password" (loginResponse (login cmp db e pw)) = false ∧
    (∀ em xp st bs, login cmp db e pw = .success em xp st bs →
      ∃ fs, loginResponse (login cmp db e pw) =
        .obj (.cons "message" (.str "Login successful")
          (.cons "user" (.obj fs) .nil)) ∧
        fs.keys = ["email", "xp", "streak", "badges"]) ∧
    ∀ j ∈ leaderboardJson db,
      JVal.hasKey "password" j = false ∧
      ∃ fs, j = .obj fs ∧ fs.keys = ["_id", "email", "xp", "badges"] := by
  refine ⟨?_, ?_, ?_⟩
  · cases h : login cmp db e pw <;>
      simp [loginResponse, JVal.hasKey, JFields.hasKey]
  · intro em xp st bs h
    rw [h]
    exact ⟨_, rfl, rfl⟩
  · intro j hj
    obtain ⟨entry, _, hje⟩ := List.mem_map.1 hj
    subst hje
    exact ⟨by simp [lbEntryJson, JVal.hasKey, JFields.hasKey], _, rfl, rfl⟩

/-- Witness for C10: a successful login against a one-user store exposes a
user object with exactly the four public keys. -/
theorem no_password_exposure_witness :
    ∃ fs, loginResponse (login (fun _ _ => true)
      { users := [{ id := 1, email := "a", password := "H", xp := 7,
                    streak := 3, badges := ["Plastic Buster"],
                    createdAt := 0 }],
        pickups := [], pledges := [] } "a" "p") =
      .obj (.cons "message" (.str "Login successful")
        (.cons "user" (.obj fs) .nil)) ∧
      fs.keys = ["email", "xp", "streak", "badges"] :=
  (no_password_exposure (fun _ _ => true)
    { users := [{ id := 1, email := "a", password := "H", xp := 7,
                  streak := 3, badges := ["Plastic Buster"],
                  createdAt := 0 }],
      pickups := [], pledges := [] } "a" "p").2.1
    "a" 7 3 ["Plastic Buster"] (by decide)
